import Mathlib

/-!
Verification of the BlockchainCore streaming OHLCV aggregator and anomaly
detector, shallowly embedded from the Python source.

Aggregator: src/src/lambda/processor/processor.py, class OHLCVCalculator.
Detector:   src/src/lambda/anomaly/detector.py, class AnomalyDetector.

Modelling conventions:
* Python floats are modelled as rationals; all arithmetic in the source is
  plain +, -, *, /, max, min, abs, so no rounding behaviour is at stake.
* Python dict lookups (`trade_data.get`) and nullable fields are modelled
  with Option.  A price or quantity field that is present but non-numeric,
  on which `float(...)` raises ValueError, is modelled as `none`.
* Raised exceptions are modelled with Except: `Except.error` is an
  uncaught Python exception propagating out of the call.
* The interval-key string produced by `get_interval_key`
  (strftime format with year..minute) is replaced by the absolute minute
  number it injectively encodes (local time modelled as UTC); the source
  only ever compares keys for equality, which this preserves.
* `datetime.now()` (used by the source as the default for a missing
  timestamp) is passed in explicitly as the `now` argument.
-/

/-- The aggregator accumulator dict `self.ohlcv_data`
(keys open, high, low, close, volume, trade_count). -/
structure OHLCVData where
  open_ : Option ℚ
  high : Option ℚ
  low : Option ℚ
  close : Option ℚ
  volume : ℚ
  trade_count : Nat
deriving DecidableEq, Repr

/-- The fresh accumulator installed by `__init__` and `reset_ohlcv`. -/
def emptyOHLCV : OHLCVData := ⟨none, none, none, none, 0, 0⟩

/-- State of one `OHLCVCalculator` instance. -/
structure OHLCVCalculator where
  symbol : String
  interval_minutes : Nat
  current_interval : Option Nat
  ohlcv_data : OHLCVData
deriving DecidableEq, Repr

/-- `OHLCVCalculator.__init__`. -/
def OHLCVCalculator.init (symbol : String) (interval_minutes : Nat) :
    OHLCVCalculator :=
  ⟨symbol, interval_minutes, none, emptyOHLCV⟩

/-- An incoming Binance trade message as the calculator reads it:
field E (event time millis, absent modelled as `none`), field p (price)
and field q (quantity), where `none` for p or q stands for a
present-but-non-numeric value on which `float(...)` raises. -/
structure RawTrade where
  E : Option Nat
  p : Option ℚ
  q : Option ℚ
deriving DecidableEq, Repr

/-- An uncaught Python exception from the processor (ValueError from a
failed float conversion).  There is no other error case: in particular the
source has no late-event rejection path. -/
inductive PyErr where
  | valueError
deriving DecidableEq, Repr

/-- The dict produced by `get_ohlcv_data`: the materialized candle. -/
structure Candle where
  symbol : String
  timestamp : Option Nat
  open_ : Option ℚ
  high : Option ℚ
  low : Option ℚ
  close : Option ℚ
  volume : ℚ
  trade_count : Nat
deriving DecidableEq, Repr

/-- `get_interval_key`: floor the event time to the interval granularity.
The source zeroes seconds and microseconds and floors the minute-of-hour
field to a multiple of `interval_minutes`; the resulting strftime string
is modelled by the absolute minute number it encodes. -/
def OHLCVCalculator.get_interval_key (c : OHLCVCalculator)
    (timestamp_ms : Nat) : Nat :=
  let totalMinutes := timestamp_ms / 60000
  let hour := totalMinutes / 60
  let minute := totalMinutes % 60
  hour * 60 + (minute / c.interval_minutes) * c.interval_minutes

/-- Python `x or price` applied to a nullable accumulator field: falsy
values, namely `None` and `0.0`, are replaced by `price`.  The source
relies on this idiom for the high and low fields (lines 85 and 86), which
is what makes an accumulated 0.0 indistinguishable from absent. -/
def pyOr (x : Option ℚ) (price : ℚ) : ℚ :=
  match x with
  | none => price
  | some v => if v = 0 then price else v

/-- `reset_ohlcv`. -/
def OHLCVCalculator.reset_ohlcv (c : OHLCVCalculator) : OHLCVCalculator :=
  ⟨c.symbol, c.interval_minutes, c.current_interval, emptyOHLCV⟩

/-- `get_ohlcv_data`: materialize the current accumulator as a candle
dict, or None when no trade has been folded yet.  Only the open field is
tested against None, exactly as in the source. -/
def OHLCVCalculator.get_ohlcv_data (c : OHLCVCalculator) : Option Candle :=
  match c.ohlcv_data.open_ with
  | none => none
  | some o =>
    some ⟨c.symbol, c.current_interval, some o, c.ohlcv_data.high,
      c.ohlcv_data.low, c.ohlcv_data.close, c.ohlcv_data.volume,
      c.ohlcv_data.trade_count⟩

/-- `process_trade`, line for line from the source.  The returned pair is
(updated calculator state, returned value).  Note the source computes
`result = self.get_ohlcv_data()` inside the rollover branch and then
discards it: the function body ends in `return None` unconditionally, so
the second component is always `none`.  A differing interval key, whether
newer or older than the open one, triggers the same reset-and-reopen
branch: there is no check that the key moved forward. -/
def OHLCVCalculator.process_trade (c : OHLCVCalculator) (now : Nat)
    (trade_data : RawTrade) : Except PyErr (OHLCVCalculator × Option Candle) :=
  let timestamp_ms := trade_data.E.getD now
  match trade_data.p, trade_data.q with
  | some price, some quantity =>
    let interval_key := c.get_interval_key timestamp_ms
    let c1 : OHLCVCalculator :=
      match c.current_interval with
      | some ci =>
        if interval_key ≠ ci then
          ⟨c.symbol, c.interval_minutes, some interval_key, emptyOHLCV⟩
        else c
      | none => c
    let c2 : OHLCVCalculator :=
      if c1.current_interval = none then
        ⟨c1.symbol, c1.interval_minutes, some interval_key, c1.ohlcv_data⟩
      else c1
    let d := c2.ohlcv_data
    let newOpen : Option ℚ :=
      match d.open_ with
      | none => some price
      | some o => some o
    let d2 : OHLCVData :=
      ⟨newOpen, some (max (pyOr d.high price) price),
        some (min (pyOr d.low price) price), some price,
        d.volume + quantity, d.trade_count + 1⟩
    .ok (⟨c2.symbol, c2.interval_minutes, c2.current_interval, d2⟩, none)
  | _, _ => .error .valueError

/-- One row of the candle history the detector reads back from storage
(the dict fields the rules actually access: symbol, timestamp, close,
volume).  The history list is ordered most-recent-first. -/
structure OhlcvItem where
  symbol : String
  timestamp : Nat
  close : ℚ
  volume : ℚ
deriving DecidableEq, Repr

/-- Placeholder used for the unreachable `data[0]` access on a list whose
length was already checked; never observable. -/
def OhlcvItem.dummy : OhlcvItem := ⟨"", 0, 0, 0⟩

/-- Anomaly severity, keys "medium" and "high" in the source dicts. -/
inductive Severity where
  | medium
  | high
deriving DecidableEq, Repr

/-- The "type" key of an anomaly dict. -/
inductive AnomalyType where
  | price_movement
  | volume_spike
  | sma_divergence
deriving DecidableEq, Repr

/-- An anomaly record as built by the three detection rules.  `measure`
is the rule-specific measured value: price_change_pct for the price rule,
volume_ratio for the volume rule, divergence_pct for the SMA rule.  The
fields of the source dicts that merely echo inputs (current_price and the
like) are omitted. -/
structure Anomaly where
  type : AnomalyType
  symbol : String
  severity : Severity
  measure : ℚ
  threshold : ℚ
  timestamp : Nat
deriving DecidableEq, Repr

/-- An uncaught Python exception from the detector: ZeroDivisionError
raised by an unguarded division. -/
inductive DetErr where
  | zeroDivision
deriving DecidableEq, Repr

/-- Python division as the detector performs it: raises on a zero
denominator. -/
def pydiv (a b : ℚ) : Except DetErr ℚ :=
  if b = 0 then .error .zeroDivision else .ok (a / b)

/-- `statistics.mean` on a nonempty list of numbers. -/
def mean (l : List ℚ) : ℚ := l.sum / l.length

/-- The detector configuration: the three thresholds read from the
environment in the source module preamble. -/
structure AnomalyDetector where
  price_threshold : ℚ
  volume_threshold : ℚ
  sma_threshold : ℚ
deriving DecidableEq, Repr

/-- The environment defaults: PRICE_THRESHOLD 5.0, VOLUME_THRESHOLD 3.0,
SMA_THRESHOLD 2.0. -/
def defaultDetector : AnomalyDetector := ⟨5, 3, 2⟩

/-- `detect_price_anomaly`.  The source guard `len < 2 -> None` is the
wildcard match arm.  The division by the previous close is unguarded. -/
def AnomalyDetector.detect_price_anomaly (d : AnomalyDetector)
    (ohlcv_data : List OhlcvItem) : Except DetErr (Option Anomaly) :=
  match ohlcv_data with
  | current :: previous :: _ =>
    match pydiv (current.close - previous.close) previous.close with
    | .error e => .error e
    | .ok r =>
      let price_change_pct := r * 100
      if |price_change_pct| > d.price_threshold then
        .ok (some ⟨.price_movement, current.symbol,
          (if |price_change_pct| > d.price_threshold * 2 then .high
           else .medium),
          price_change_pct, d.price_threshold, current.timestamp⟩)
      else .ok none
  | _ => .ok none

/-- `detect_volume_anomaly`.  The average is over `recent_volumes[1:]`,
the nine candles at positions 1..9; the ratio is guarded by
`if avg_volume > 0 else 0`, so this rule never divides by zero. -/
def AnomalyDetector.detect_volume_anomaly (d : AnomalyDetector)
    (ohlcv_data : List OhlcvItem) : Except DetErr (Option Anomaly) :=
  if ohlcv_data.length < 10 then .ok none
  else
    let recent_volumes := (ohlcv_data.take 10).map (·.volume)
    let current_volume := recent_volumes.headD 0
    let avg_volume := mean (recent_volumes.drop 1)
    let volume_ratio := if avg_volume > 0 then current_volume / avg_volume else 0
    if volume_ratio > d.volume_threshold then
      .ok (some ⟨.volume_spike, (ohlcv_data.headD OhlcvItem.dummy).symbol,
        (if volume_ratio > d.volume_threshold * 2 then .high else .medium),
        volume_ratio, d.volume_threshold,
        (ohlcv_data.headD OhlcvItem.dummy).timestamp⟩)
    else .ok none

/-- `calculate_sma`: mean of the `period` most recent closes, None when
the history is shorter than `period`. -/
def calculate_sma (ohlcv_data : List OhlcvItem) (period : Nat) : Option ℚ :=
  if ohlcv_data.length < period then none
  else some (mean ((ohlcv_data.take period).map (·.close)))

/-- `detect_sma_divergence`.  Requires 25 candles, compares the 10-wide
and 20-wide SMAs; the division by the long SMA is unguarded. -/
def AnomalyDetector.detect_sma_divergence (d : AnomalyDetector)
    (ohlcv_data : List OhlcvItem) : Except DetErr (Option Anomaly) :=
  if ohlcv_data.length < 25 then .ok none
  else
    let current := ohlcv_data.headD OhlcvItem.dummy
    match calculate_sma ohlcv_data 10, calculate_sma ohlcv_data 20 with
    | some short_sma, some long_sma =>
      match pydiv (short_sma - long_sma) long_sma with
      | .error e => .error e
      | .ok r =>
        let divergence_pct := r * 100
        if |divergence_pct| > d.sma_threshold then
          .ok (some ⟨.sma_divergence, current.symbol,
            (if |divergence_pct| > d.sma_threshold * 2 then .high
             else .medium),
            divergence_pct, d.sma_threshold, current.timestamp⟩)
        else .ok none
    | _, _ => .ok none

/-- `detect_anomalies` applied to an already-fetched history (the
DynamoDB query in `get_recent_ohlcv_data` is the external storage
collaborator).  The rules run in the fixed order price, volume, SMA and
each appends at most one record; an exception in one rule aborts the
whole call, exactly as in Python. -/
def AnomalyDetector.detect_anomalies (d : AnomalyDetector)
    (ohlcv_data : List OhlcvItem) : Except DetErr (List Anomaly) :=
  if ohlcv_data.isEmpty then .ok []
  else
    match d.detect_price_anomaly ohlcv_data with
    | .error e => .error e
    | .ok price_anomaly =>
      match d.detect_volume_anomaly ohlcv_data with
      | .error e => .error e
      | .ok volume_anomaly =>
        match d.detect_sma_divergence ohlcv_data with
        | .error e => .error e
        | .ok sma_anomaly =>
          .ok (price_anomaly.toList ++ volume_anomaly.toList ++
            sma_anomaly.toList)

deriving instance DecidableEq for Except


/-- From the spec (claim C8): the volume ratio, defined as
history[0].volume divided by the average of the volumes at positions
1..9, and as 0 when that average is 0.  The code guards with
avg_volume greater than 0 instead; the two agree on the nonnegative
volumes the data model allows. -/
def specVolumeRatio (data : List OhlcvItem) : ℚ :=
  let avg := mean (List.drop 1 (List.take 10 (data.map (·.volume))))
  if avg = 0 then 0 else (data.headD OhlcvItem.dummy).volume / avg

/-- The 25-candle history of the spec SMA example: the ten most recent
closes are 110, the other fifteen are 100. -/
def c9ExampleHistory : List OhlcvItem :=
  [⟨"BTCUSDT", 24, 110, 1⟩, ⟨"BTCUSDT", 24, 110, 1⟩, ⟨"BTCUSDT", 24, 110, 1⟩, ⟨"BTCUSDT", 24, 110, 1⟩,
   ⟨"BTCUSDT", 24, 110, 1⟩, ⟨"BTCUSDT", 24, 110, 1⟩, ⟨"BTCUSDT", 24, 110, 1⟩, ⟨"BTCUSDT", 24, 110, 1⟩,
   ⟨"BTCUSDT", 24, 110, 1⟩, ⟨"BTCUSDT", 24, 110, 1⟩, ⟨"BTCUSDT", 4, 100, 1⟩, ⟨"BTCUSDT", 4, 100, 1⟩,
   ⟨"BTCUSDT", 4, 100, 1⟩, ⟨"BTCUSDT", 4, 100, 1⟩, ⟨"BTCUSDT", 4, 100, 1⟩, ⟨"BTCUSDT", 4, 100, 1⟩,
   ⟨"BTCUSDT", 4, 100, 1⟩, ⟨"BTCUSDT", 4, 100, 1⟩, ⟨"BTCUSDT", 4, 100, 1⟩, ⟨"BTCUSDT", 4, 100, 1⟩,
   ⟨"BTCUSDT", 4, 100, 1⟩, ⟨"BTCUSDT", 4, 100, 1⟩, ⟨"BTCUSDT", 4, 100, 1⟩, ⟨"BTCUSDT", 4, 100, 1⟩,
   ⟨"BTCUSDT", 4, 100, 1⟩]

/-- A 25-candle history whose closes are all 0. -/
def c9ZeroHistory : List OhlcvItem :=
  [⟨"BTCUSDT", 3, 0, 1⟩, ⟨"BTCUSDT", 3, 0, 1⟩, ⟨"BTCUSDT", 3, 0, 1⟩, ⟨"BTCUSDT", 3, 0, 1⟩,
   ⟨"BTCUSDT", 3, 0, 1⟩, ⟨"BTCUSDT", 3, 0, 1⟩, ⟨"BTCUSDT", 3, 0, 1⟩, ⟨"BTCUSDT", 3, 0, 1⟩,
   ⟨"BTCUSDT", 3, 0, 1⟩, ⟨"BTCUSDT", 3, 0, 1⟩, ⟨"BTCUSDT", 3, 0, 1⟩, ⟨"BTCUSDT", 3, 0, 1⟩,
   ⟨"BTCUSDT", 3, 0, 1⟩, ⟨"BTCUSDT", 3, 0, 1⟩, ⟨"BTCUSDT", 3, 0, 1⟩, ⟨"BTCUSDT", 3, 0, 1⟩,
   ⟨"BTCUSDT", 3, 0, 1⟩, ⟨"BTCUSDT", 3, 0, 1⟩, ⟨"BTCUSDT", 3, 0, 1⟩, ⟨"BTCUSDT", 3, 0, 1⟩,
   ⟨"BTCUSDT", 3, 0, 1⟩, ⟨"BTCUSDT", 3, 0, 1⟩, ⟨"BTCUSDT", 3, 0, 1⟩, ⟨"BTCUSDT", 3, 0, 1⟩,
   ⟨"BTCUSDT", 3, 0, 1⟩]

/-- A 25-candle history with a milder divergence: ten closes 106 over
fifteen closes 100. -/
def c9WitnessHistory : List OhlcvItem :=
  [⟨"BTCUSDT", 7, 106, 1⟩, ⟨"BTCUSDT", 7, 106, 1⟩, ⟨"BTCUSDT", 7, 106, 1⟩, ⟨"BTCUSDT", 7, 106, 1⟩,
   ⟨"BTCUSDT", 7, 106, 1⟩, ⟨"BTCUSDT", 7, 106, 1⟩, ⟨"BTCUSDT", 7, 106, 1⟩, ⟨"BTCUSDT", 7, 106, 1⟩,
   ⟨"BTCUSDT", 7, 106, 1⟩, ⟨"BTCUSDT", 7, 106, 1⟩, ⟨"BTCUSDT", 6, 100, 1⟩, ⟨"BTCUSDT", 6, 100, 1⟩,
   ⟨"BTCUSDT", 6, 100, 1⟩, ⟨"BTCUSDT", 6, 100, 1⟩, ⟨"BTCUSDT", 6, 100, 1⟩, ⟨"BTCUSDT", 6, 100, 1⟩,
   ⟨"BTCUSDT", 6, 100, 1⟩, ⟨"BTCUSDT", 6, 100, 1⟩, ⟨"BTCUSDT", 6, 100, 1⟩, ⟨"BTCUSDT", 6, 100, 1⟩,
   ⟨"BTCUSDT", 6, 100, 1⟩, ⟨"BTCUSDT", 6, 100, 1⟩, ⟨"BTCUSDT", 6, 100, 1⟩, ⟨"BTCUSDT", 6, 100, 1⟩,
   ⟨"BTCUSDT", 6, 100, 1⟩]

/-- Helper: an if-expression whose branches are both `Except.ok` always
evaluates to some `Except.ok`. -/
theorem exists_ok_ite {α ε : Type} (c : Prop) [Decidable c] (x y : α) :
    ∃ r, (if c then Except.ok x else Except.ok y) = (Except.ok (ε := ε) r) := by
  split
  · exact ⟨x, rfl⟩
  · exact ⟨y, rfl⟩

/-- Helper: every record returned by the price rule carries type
price_movement. -/
theorem detect_price_anomaly_type (d : AnomalyDetector) (data : List OhlcvItem)
    (a : Anomaly) (h : d.detect_price_anomaly data = .ok (some a)) :
    a.type = .price_movement := by
  rcases data with _ | ⟨c0, _ | ⟨c1, rest⟩⟩
  · simp [AnomalyDetector.detect_price_anomaly] at h
  · simp [AnomalyDetector.detect_price_anomaly] at h
  · by_cases hz : c1.close = 0
    · simp [AnomalyDetector.detect_price_anomaly, pydiv, hz] at h
    · simp only [AnomalyDetector.detect_price_anomaly, pydiv, hz, if_false] at h
      split at h <;> simp at h
      subst h
      rfl

/-- Helper: every record returned by the volume rule carries type
volume_spike. -/
theorem detect_volume_anomaly_type (d : AnomalyDetector) (data : List OhlcvItem)
    (a : Anomaly) (h : d.detect_volume_anomaly data = .ok (some a)) :
    a.type = .volume_spike := by
  unfold AnomalyDetector.detect_volume_anomaly at h
  split at h
  · simp at h
  · dsimp only at h
    split at h
    · split at h <;> simp at h
      subst h
      rfl
    · split at h <;> simp at h
      subst h
      rfl

/-- Helper: every record returned by the SMA rule carries type
sma_divergence. -/
theorem detect_sma_divergence_type (d : AnomalyDetector) (data : List OhlcvItem)
    (a : Anomaly) (h : d.detect_sma_divergence data = .ok (some a)) :
    a.type = .sma_divergence := by
  unfold AnomalyDetector.detect_sma_divergence at h
  split at h
  · simp at h
  · dsimp only at h
    split at h
    · split at h
      · simp at h
      · split at h <;> simp at h
        subst h
        rfl
    · simp at h

/-- C1: the claim says a trade whose interval key is strictly greater
than the open one makes process_trade return the materialized Candle of
the closed interval.  The code closes and reseeds the state correctly
but always returns None: in the concrete run below, the trade in minute
0 opens the interval, get_ohlcv_data shows the candle that stood ready
to be emitted, and the minute-1 trade rolls the interval over yet still
returns none as its output component, dropping the candle. -/
theorem C1_rollover_returns_none :
    (OHLCVCalculator.init "BTCUSDT" 1).process_trade 0 ⟨some 0, some 100, some 1⟩
      = .ok (⟨"BTCUSDT", 1, some 0, ⟨some 100, some 100, some 100, some 100, 1, 1⟩⟩, none)
    ∧ (OHLCVCalculator.get_ohlcv_data
        ⟨"BTCUSDT", 1, some 0, ⟨some 100, some 100, some 100, some 100, 1, 1⟩⟩)
      = some ⟨"BTCUSDT", some 0, some 100, some 100, some 100, some 100, 1, 1⟩
    ∧ (OHLCVCalculator.process_trade
        ⟨"BTCUSDT", 1, some 0, ⟨some 100, some 100, some 100, some 100, 1, 1⟩⟩
        0 ⟨some 60000, some 101, some 2⟩)
      = .ok (⟨"BTCUSDT", 1, some 1, ⟨some 101, some 101, some 101, some 101, 2, 1⟩⟩, none) := by
  refine ⟨?_, ?_, ?_⟩ <;>
    simp [OHLCVCalculator.process_trade, OHLCVCalculator.init, OHLCVCalculator.get_interval_key,
      OHLCVCalculator.get_ohlcv_data, emptyOHLCV, pyOr]

/-- C2 counterexample: a late trade (interval key 0, strictly below the
open key 1) is not rejected and does not leave the state unchanged: the
call succeeds and the state is reset and reopened at the stale key,
seeded from the late trade. -/
theorem C2_no_late_rejection_cex :
    (⟨"BTCUSDT", 1, some 1, ⟨some 100, some 100, some 100, some 100, 1, 1⟩⟩ :
        OHLCVCalculator).process_trade 0 ⟨some 0, some 50, some 1⟩ =
      .ok (⟨"BTCUSDT", 1, some 0, ⟨some 50, some 50, some 50, some 50, 1, 1⟩⟩, none)
    ∧ (⟨"BTCUSDT", 1, some 0, ⟨some 50, some 50, some 50, some 50, 1, 1⟩⟩ :
        OHLCVCalculator)
      ≠ ⟨"BTCUSDT", 1, some 1, ⟨some 100, some 100, some 100, some 100, 1, 1⟩⟩ := by
  constructor
  · simp [OHLCVCalculator.process_trade, OHLCVCalculator.get_interval_key, emptyOHLCV, pyOr]
  · simp

/-- C2 amended: a trade whose interval key is strictly less than the
open interval key is treated like any interval change: process_trade
discards the accumulated interval, reopens at the stale key seeded from
the late event, and returns None; no late-event signal exists and the
state is mutated. -/
theorem C2_late_trade_resets_and_reopens (s : OHLCVCalculator) (now e : Nat)
    (p q : ℚ) (k : Nat)
    (hk : s.current_interval = some k)
    (hlt : s.get_interval_key e < k) :
    s.process_trade now ⟨some e, some p, some q⟩ =
      .ok (⟨s.symbol, s.interval_minutes, some (s.get_interval_key e),
        ⟨some p, some p, some p, some p, q, 1⟩⟩, none) := by
  have hne : s.get_interval_key e ≠ k := Nat.ne_of_lt hlt
  simp [OHLCVCalculator.process_trade, hk, hne, emptyOHLCV, pyOr]

/-- C2 witness: the amended statement evaluated at an open interval with
key 2 and a late trade in minute 1. -/
theorem C2_late_trade_witness :
    (⟨"BTCUSDT", 1, some 2, ⟨some 100, some 100, some 100, some 100, 1, 1⟩⟩ :
        OHLCVCalculator).process_trade 0 ⟨some 60000, some 70, some 2⟩ =
      .ok (⟨"BTCUSDT", 1, some 1, ⟨some 70, some 70, some 70, some 70, 2, 1⟩⟩, none) := by
  have h := C2_late_trade_resets_and_reopens
    ⟨"BTCUSDT", 1, some 2, ⟨some 100, some 100, some 100, some 100, 1, 1⟩⟩
    0 60000 70 2 2 rfl (by decide)
  simpa [OHLCVCalculator.get_interval_key] using h

/-- C4 counterexample: a trade with a missing timestamp is not rejected:
the wall-clock time (here 30000 ms, inside the open minute-0 interval)
is substituted and the trade is folded into the open interval, mutating
the state (trade_count rises from 1 to 2). -/
theorem C4_missing_timestamp_folded_cex :
    (⟨"BTCUSDT", 1, some 0, ⟨some 100, some 100, some 100, some 100, 1, 1⟩⟩ :
        OHLCVCalculator).process_trade 30000 ⟨none, some 110, some 1⟩ =
      .ok (⟨"BTCUSDT", 1, some 0, ⟨some 100, some 110, some 100, some 110, 2, 2⟩⟩, none) := by
  simp [OHLCVCalculator.process_trade, OHLCVCalculator.get_interval_key, emptyOHLCV, pyOr,
    max_def, min_def]
  norm_num

/-- C4 amended: a non-numeric price or quantity raises the float
conversion error before any state mutation (the call produces no new
state), while a missing timestamp is not rejected at all: the current
time is substituted and the call behaves exactly like a trade stamped
with that time. -/
theorem C4_malformed_rejection_profile (s : OHLCVCalculator) (now : Nat)
    (td : RawTrade) :
    ((td.p = none ∨ td.q = none) → s.process_trade now td = .error .valueError)
    ∧ s.process_trade now ⟨none, td.p, td.q⟩ =
        s.process_trade now ⟨some now, td.p, td.q⟩ := by
  constructor
  · rintro (hp | hq)
    · cases htq : td.q <;> simp [OHLCVCalculator.process_trade, hp, htq]
    · cases htp : td.p <;> simp [OHLCVCalculator.process_trade, hq, htp]
  · rfl

/-- C4 witness: a non-numeric price raises the conversion error. -/
theorem C4_malformed_witness :
    (OHLCVCalculator.init "BTCUSDT" 1).process_trade 0 ⟨some 0, none, some 1⟩ =
      .error .valueError :=
  (C4_malformed_rejection_profile (OHLCVCalculator.init "BTCUSDT" 1) 0
    ⟨some 0, none, some 1⟩).1 (Or.inl rfl)

/-- C5 counterexample: after flush (get_ohlcv_data) returns the open
candle, a next trade inside the same interval continues the flushed
accumulation (trade_count 1 to 2, open price kept) instead of starting a
fresh interval. -/
theorem C5_flush_not_fresh_cex :
    (⟨"BTCUSDT", 1, some 0, ⟨some 200, some 200, some 200, some 200, 1, 1⟩⟩ :
        OHLCVCalculator).get_ohlcv_data =
      some ⟨"BTCUSDT", some 0, some 200, some 200, some 200, some 200, 1, 1⟩
    ∧ (⟨"BTCUSDT", 1, some 0, ⟨some 200, some 200, some 200, some 200, 1, 1⟩⟩ :
        OHLCVCalculator).process_trade 0 ⟨some 30000, some 210, some 1⟩ =
      .ok (⟨"BTCUSDT", 1, some 0, ⟨some 200, some 210, some 200, some 210, 2, 2⟩⟩, none) := by
  constructor
  · simp [OHLCVCalculator.get_ohlcv_data]
  · simp [OHLCVCalculator.process_trade, OHLCVCalculator.get_interval_key, emptyOHLCV, pyOr,
      max_def, min_def]
    norm_num

/-- C5 amended: flush (get_ohlcv_data) returns nothing when no interval
is open and otherwise materializes the open interval as a candle one to
one from the current state; being read-only it starts no new interval
and performs no reset, so subsequent processing continues the still-open
interval. -/
theorem C5_flush_materializes_without_reset (s : OHLCVCalculator) :
    (s.ohlcv_data.open_ = none → s.get_ohlcv_data = none)
    ∧ ∀ o, s.ohlcv_data.open_ = some o →
      s.get_ohlcv_data = some ⟨s.symbol, s.current_interval, some o,
        s.ohlcv_data.high, s.ohlcv_data.low, s.ohlcv_data.close,
        s.ohlcv_data.volume, s.ohlcv_data.trade_count⟩ := by
  constructor
  · intro h; simp [OHLCVCalculator.get_ohlcv_data, h]
  · intro o h; simp [OHLCVCalculator.get_ohlcv_data, h]

/-- C5 witness: the amended statement evaluated on an open interval. -/
theorem C5_flush_witness :
    (⟨"ETHUSDT", 1, some 3, ⟨some 7, some 9, some 6, some 8, 4, 3⟩⟩ :
        OHLCVCalculator).get_ohlcv_data =
      some ⟨"ETHUSDT", some 3, some 7, some 9, some 6, some 8, 4, 3⟩ :=
  (C5_flush_materializes_without_reset
    ⟨"ETHUSDT", 1, some 3, ⟨some 7, some 9, some 6, some 8, 4, 3⟩⟩).2 7 rfl

/-- C6: two same-interval trades, price 0 then price 5, leave the candle
with low 5 but open 0, violating the claimed invariant low at most open:
the Python `or` idiom treats the accumulated 0.0 low as absent and
restarts the minimum from the newer price. -/
theorem C6_low_invariant_violation :
    (OHLCVCalculator.init "BTCUSDT" 1).process_trade 0 ⟨some 0, some 0, some 1⟩ =
      .ok (⟨"BTCUSDT", 1, some 0, ⟨some 0, some 0, some 0, some 0, 1, 1⟩⟩, none)
    ∧ (⟨"BTCUSDT", 1, some 0, ⟨some 0, some 0, some 0, some 0, 1, 1⟩⟩ :
        OHLCVCalculator).process_trade 0 ⟨some 1000, some 5, some 1⟩ =
      .ok (⟨"BTCUSDT", 1, some 0, ⟨some 0, some 5, some 5, some 5, 2, 2⟩⟩, none)
    ∧ (⟨"BTCUSDT", 1, some 0, ⟨some 0, some 5, some 5, some 5, 2, 2⟩⟩ :
        OHLCVCalculator).get_ohlcv_data =
      some ⟨"BTCUSDT", some 0, some 0, some 5, some 5, some 5, 2, 2⟩
    ∧ ¬ ((5 : ℚ) ≤ 0) := by
  refine ⟨?_, ?_, ?_, by norm_num⟩ <;>
    simp [OHLCVCalculator.process_trade, OHLCVCalculator.init, OHLCVCalculator.get_interval_key,
      OHLCVCalculator.get_ohlcv_data, emptyOHLCV, pyOr, max_def, min_def]
  norm_num

/-- C3 counterexample: the price rule raises a division-by-zero fault
when the previous close is 0, so the detector does not avoid
division-by-zero faults as claimed. -/
theorem C3_price_rule_divzero_cex :
    defaultDetector.detect_price_anomaly
      [⟨"BTCUSDT", 1, 5, 10⟩, ⟨"BTCUSDT", 0, 0, 10⟩] = .error .zeroDivision := by
  simp [AnomalyDetector.detect_price_anomaly, pydiv]

/-- C3 amended: the volume rule never faults (its division is guarded);
the price rule faults exactly when the history has at least two candles
and the second close is 0; the SMA rule faults exactly when the history
has at least 25 candles and the mean of the 20 most recent closes is 0.
Otherwise every rule returns a result. -/
theorem C3_divzero_fault_profile (d : AnomalyDetector) (data : List OhlcvItem) :
    (∃ r, d.detect_volume_anomaly data = .ok r)
    ∧ (d.detect_price_anomaly data = .error .zeroDivision ↔
        ∃ c0 c1 rest, data = c0 :: c1 :: rest ∧ c1.close = 0)
    ∧ (d.detect_sma_divergence data = .error .zeroDivision ↔
        25 ≤ data.length ∧ mean (List.take 20 (data.map (·.close))) = 0) := by
  refine ⟨?_, ?_, ?_⟩
  · unfold AnomalyDetector.detect_volume_anomaly
    by_cases h : data.length < 10
    · simp only [h, if_true]
      exact ⟨none, rfl⟩
    · simp only [h, if_false]
      exact exists_ok_ite _ _ _
  · rcases data with _ | ⟨c0, _ | ⟨c1, rest⟩⟩
    · simp [AnomalyDetector.detect_price_anomaly]
    · simp [AnomalyDetector.detect_price_anomaly]
    · constructor
      · intro herr
        refine ⟨c0, c1, rest, rfl, ?_⟩
        by_contra hc
        simp only [AnomalyDetector.detect_price_anomaly, pydiv, hc, if_false] at herr
        split at herr <;> simp at herr
      · rintro ⟨a, b, r, heq, hc⟩
        simp only [List.cons.injEq] at heq
        obtain ⟨rfl, rfl, rfl⟩ := heq
        simp [AnomalyDetector.detect_price_anomaly, pydiv, hc]
  · by_cases hlen : data.length < 25
    · simp only [AnomalyDetector.detect_sma_divergence, hlen, if_true]
      constructor
      · intro h; simp at h
      · rintro ⟨h25, _⟩; omega
    · have h25 : 25 ≤ data.length := Nat.le_of_not_lt hlen
      have h10 : ¬ data.length < 10 := by omega
      have h20 : ¬ data.length < 20 := by omega
      simp only [AnomalyDetector.detect_sma_divergence, hlen, if_false, calculate_sma,
        h10, h20, List.map_take]
      by_cases hz : mean (List.take 20 (data.map (·.close))) = 0
      · simp only [pydiv, hz, if_true]
        simp [h25]
      · simp only [pydiv, hz, if_false]
        constructor
        · intro h
          split at h <;> simp at h
        · rintro ⟨_, hc⟩
          exact hc.elim

/-- C3 witness: the fault profile applied to a two-candle history whose
previous close is 0 yields the price-rule fault. -/
theorem C3_fault_profile_witness :
    defaultDetector.detect_price_anomaly
      [⟨"BTCUSDT", 1, 7, 10⟩, ⟨"BTCUSDT", 0, 0, 10⟩] = .error .zeroDivision :=
  (C3_divzero_fault_profile defaultDetector
    [⟨"BTCUSDT", 1, 7, 10⟩, ⟨"BTCUSDT", 0, 0, 10⟩]).2.1.mpr
    ⟨⟨"BTCUSDT", 1, 7, 10⟩, ⟨"BTCUSDT", 0, 0, 10⟩, [], rfl, rfl⟩

/-- C7 counterexample: with at least two candles but a zero previous
close, the price rule neither fires nor abstains: it faults, so the
claimed total behaviour over every two-candle history fails. -/
theorem C7_price_rule_divzero_cex :
    defaultDetector.detect_price_anomaly
      [⟨"BTCUSDT", 1, 100, 10⟩, ⟨"BTCUSDT", 0, 0, 10⟩] = .error .zeroDivision := by
  simp [AnomalyDetector.detect_price_anomaly, pydiv]

/-- C7 amended: on histories shorter than two candles the price rule
returns nothing; on a history starting with c0, c1 where the previous
close c1.close is nonzero, it computes the percentage change of the two
closes and fires exactly when its absolute value exceeds the threshold,
with severity high exactly when it exceeds twice the threshold. -/
theorem C7_price_rule (d : AnomalyDetector) (data : List OhlcvItem) :
    (data.length < 2 → d.detect_price_anomaly data = .ok none)
    ∧ ∀ c0 c1 rest, data = c0 :: c1 :: rest → c1.close ≠ 0 →
      d.detect_price_anomaly data =
        .ok (if |(c0.close - c1.close) / c1.close * 100| > d.price_threshold then
              some ⟨.price_movement, c0.symbol,
                (if |(c0.close - c1.close) / c1.close * 100| > d.price_threshold * 2 then
                  .high else .medium),
                (c0.close - c1.close) / c1.close * 100, d.price_threshold, c0.timestamp⟩
            else none) := by
  constructor
  · intro h
    rcases data with _ | ⟨a, _ | ⟨b, r⟩⟩
    · simp [AnomalyDetector.detect_price_anomaly]
    · simp [AnomalyDetector.detect_price_anomaly]
    · simp at h; omega
  · rintro c0 c1 rest rfl hc
    simp only [AnomalyDetector.detect_price_anomaly, pydiv, hc, if_false]
    by_cases hfire : |(c0.close - c1.close) / c1.close * 100| > d.price_threshold <;>
      simp [hfire]

/-- C7 witness: the spec example, closes 100 over 110 at the default
threshold 5, fires with change percentage -100/11 (about -9.09) and
severity medium. -/
theorem C7_price_rule_witness :
    defaultDetector.detect_price_anomaly
      [⟨"BTCUSDT", 9, 100, 1⟩, ⟨"BTCUSDT", 8, 110, 1⟩]
      = .ok (some ⟨.price_movement, "BTCUSDT", .medium, -100/11, 5, 9⟩) := by
  have h := (C7_price_rule defaultDetector
      [⟨"BTCUSDT", 9, 100, 1⟩, ⟨"BTCUSDT", 8, 110, 1⟩]).2
    ⟨"BTCUSDT", 9, 100, 1⟩ ⟨"BTCUSDT", 8, 110, 1⟩ [] rfl (by norm_num)
  rw [h]
  have hv : ((100 : ℚ) - 110) / 110 * 100 = -(100/11) := by norm_num
  rw [hv, abs_neg, abs_of_nonneg (by norm_num : (0:ℚ) ≤ 100/11)]
  norm_num [defaultDetector]

/-- C8: the volume rule returns nothing on histories shorter than ten
candles; on longer histories with nonnegative volumes (the data model
guarantees volumes are sums of nonnegative quantities) it computes the
ratio of the newest volume to the mean of the volumes at positions 1..9,
taking the ratio to be 0 when that mean is 0, and fires exactly when the
ratio exceeds the threshold, with severity high exactly when it exceeds
twice the threshold. -/
theorem C8_volume_rule (d : AnomalyDetector) (data : List OhlcvItem)
    (hnn : ∀ c ∈ data, 0 ≤ c.volume) :
    (data.length < 10 → d.detect_volume_anomaly data = .ok none)
    ∧ (10 ≤ data.length →
        d.detect_volume_anomaly data =
          .ok (if specVolumeRatio data > d.volume_threshold then
                some ⟨.volume_spike, (data.headD OhlcvItem.dummy).symbol,
                  (if specVolumeRatio data > d.volume_threshold * 2 then .high
                   else .medium),
                  specVolumeRatio data, d.volume_threshold,
                  (data.headD OhlcvItem.dummy).timestamp⟩
              else none)) := by
  constructor
  · intro h
    simp [AnomalyDetector.detect_volume_anomaly, h]
  · intro hlen
    have h : ¬ data.length < 10 := by omega
    have havg : 0 ≤ mean (List.drop 1 (List.take 10 (data.map (·.volume)))) := by
      apply div_nonneg
      · apply List.sum_nonneg
        intro x hx
        have hx2 : x ∈ data.map (·.volume) :=
          List.mem_of_mem_take (List.mem_of_mem_drop hx)
        obtain ⟨c, hc, rfl⟩ := List.mem_map.mp hx2
        exact hnn c hc
      · positivity
    have hcur : (List.take 10 (data.map (·.volume))).headD 0 =
        (data.headD OhlcvItem.dummy).volume := by
      rcases data with _ | ⟨c0, tl⟩
      · simp at hlen
      · simp
    have hratio :
        (if mean (List.drop 1 (List.take 10 (data.map (·.volume)))) > 0 then
          (List.take 10 (data.map (·.volume))).headD 0 /
            mean (List.drop 1 (List.take 10 (data.map (·.volume)))) else 0)
        = specVolumeRatio data := by
      rcases eq_or_lt_of_le havg with heq | hlt
      · rw [if_neg (by rw [← heq]; exact lt_irrefl 0), specVolumeRatio, ← heq]
        simp
      · rw [if_pos hlt, specVolumeRatio]
        simp only [if_neg (ne_of_gt hlt), hcur]
    simp only [AnomalyDetector.detect_volume_anomaly, h, if_false, List.map_take] at *
    rw [hratio]
    split <;> rfl

/-- C8 witness: the spec example, newest volume 50 over nine volumes of
10 at the default threshold 3, fires with ratio 5 and severity medium. -/
theorem C8_volume_rule_witness :
    defaultDetector.detect_volume_anomaly
      [⟨"BTCUSDT", 9, 1, 50⟩, ⟨"BTCUSDT", 8, 1, 10⟩, ⟨"BTCUSDT", 7, 1, 10⟩,
       ⟨"BTCUSDT", 6, 1, 10⟩, ⟨"BTCUSDT", 5, 1, 10⟩, ⟨"BTCUSDT", 4, 1, 10⟩,
       ⟨"BTCUSDT", 3, 1, 10⟩, ⟨"BTCUSDT", 2, 1, 10⟩, ⟨"BTCUSDT", 1, 1, 10⟩,
       ⟨"BTCUSDT", 0, 1, 10⟩]
      = .ok (some ⟨.volume_spike, "BTCUSDT", .medium, 5, 3, 9⟩) := by
  have h := (C8_volume_rule defaultDetector
      [⟨"BTCUSDT", 9, 1, 50⟩, ⟨"BTCUSDT", 8, 1, 10⟩, ⟨"BTCUSDT", 7, 1, 10⟩,
       ⟨"BTCUSDT", 6, 1, 10⟩, ⟨"BTCUSDT", 5, 1, 10⟩, ⟨"BTCUSDT", 4, 1, 10⟩,
       ⟨"BTCUSDT", 3, 1, 10⟩, ⟨"BTCUSDT", 2, 1, 10⟩, ⟨"BTCUSDT", 1, 1, 10⟩,
       ⟨"BTCUSDT", 0, 1, 10⟩]
      (by intro c hc; fin_cases hc <;> norm_num)).2 (by norm_num)
  rw [h]
  have hr : specVolumeRatio
      [⟨"BTCUSDT", 9, 1, 50⟩, ⟨"BTCUSDT", 8, 1, 10⟩, ⟨"BTCUSDT", 7, 1, 10⟩,
       ⟨"BTCUSDT", 6, 1, 10⟩, ⟨"BTCUSDT", 5, 1, 10⟩, ⟨"BTCUSDT", 4, 1, 10⟩,
       ⟨"BTCUSDT", 3, 1, 10⟩, ⟨"BTCUSDT", 2, 1, 10⟩, ⟨"BTCUSDT", 1, 1, 10⟩,
       ⟨"BTCUSDT", 0, 1, 10⟩] = 5 := by
    norm_num [specVolumeRatio, mean]
  rw [hr]
  norm_num [defaultDetector]

/-- C9 counterexample, two parts.  First, the spec example itself (ten
closes of 110 over fifteen of 100) fires with divergence 100/21 (about
4.76 percent), which exceeds twice the default threshold 2, so the code
reports severity high, not the claimed medium.  Second, a history of 25
zero closes makes the rule fault with a division by zero instead of
returning a result. -/
theorem C9_sma_rule_cex :
    defaultDetector.detect_sma_divergence c9ExampleHistory
      = .ok (some ⟨.sma_divergence, "BTCUSDT", .high, 100/21, 2, 24⟩)
    ∧ defaultDetector.detect_sma_divergence c9ZeroHistory = .error .zeroDivision := by
  constructor
  · have h1 : calculate_sma c9ExampleHistory 10 = some 110 := by
      norm_num [calculate_sma, c9ExampleHistory, mean]
    have h2 : calculate_sma c9ExampleHistory 20 = some 105 := by
      norm_num [calculate_sma, c9ExampleHistory, mean]
    have hlen : ¬ c9ExampleHistory.length < 25 := by norm_num [c9ExampleHistory]
    simp only [AnomalyDetector.detect_sma_divergence, hlen, if_false, h1, h2, pydiv]
    rw [if_neg (by norm_num : ¬ (105:ℚ) = 0)]
    have habs : |((110:ℚ) - 105) / 105 * 100| = 100/21 := by
      rw [abs_of_nonneg (by norm_num)]; norm_num
    simp only [habs]
    norm_num [defaultDetector, c9ExampleHistory]
  · have h1 : calculate_sma c9ZeroHistory 10 = some 0 := by
      norm_num [calculate_sma, c9ZeroHistory, mean]
    have h2 : calculate_sma c9ZeroHistory 20 = some 0 := by
      norm_num [calculate_sma, c9ZeroHistory, mean]
    have hlen : ¬ c9ZeroHistory.length < 25 := by norm_num [c9ZeroHistory]
    simp only [AnomalyDetector.detect_sma_divergence, hlen, if_false, h1, h2, pydiv]
    norm_num

/-- C9 amended: the SMA rule returns nothing on histories shorter than
25 candles; on longer histories whose 20-candle SMA is nonzero it
compares the 10-candle and 20-candle SMAs and fires exactly when the
absolute divergence percentage exceeds the threshold, with severity high
exactly when it exceeds twice the threshold (so the spec example with
divergence 100/21 is high, not medium). -/
theorem C9_sma_rule (d : AnomalyDetector) (data : List OhlcvItem) :
    (data.length < 25 → d.detect_sma_divergence data = .ok none)
    ∧ ∀ ssma lsma, calculate_sma data 10 = some ssma →
        calculate_sma data 20 = some lsma → lsma ≠ 0 → 25 ≤ data.length →
        d.detect_sma_divergence data =
          .ok (if |(ssma - lsma) / lsma * 100| > d.sma_threshold then
                some ⟨.sma_divergence, (data.headD OhlcvItem.dummy).symbol,
                  (if |(ssma - lsma) / lsma * 100| > d.sma_threshold * 2 then .high
                   else .medium),
                  (ssma - lsma) / lsma * 100, d.sma_threshold,
                  (data.headD OhlcvItem.dummy).timestamp⟩
              else none) := by
  constructor
  · intro h
    simp [AnomalyDetector.detect_sma_divergence, h]
  · intro ssma lsma hs hl hlz hlen
    have h : ¬ data.length < 25 := by omega
    simp only [AnomalyDetector.detect_sma_divergence, h, if_false, hs, hl, pydiv, hlz]
    split <;> rfl

/-- C9 witness: a milder history (ten closes of 106 over fifteen of 100)
fires with divergence 300/103 (about 2.91 percent) and severity medium
at the default threshold 2. -/
theorem C9_sma_rule_witness :
    defaultDetector.detect_sma_divergence c9WitnessHistory
      = .ok (some ⟨.sma_divergence, "BTCUSDT", .medium, 300/103, 2, 7⟩) := by
  have h := (C9_sma_rule defaultDetector c9WitnessHistory).2 106 103
    (by norm_num [calculate_sma, c9WitnessHistory, mean])
    (by norm_num [calculate_sma, c9WitnessHistory, mean])
    (by norm_num) (by norm_num [c9WitnessHistory])
  rw [h]
  have habs : |((106:ℚ) - 103) / 103 * 100| = 300/103 := by
    rw [abs_of_nonneg (by norm_num)]; norm_num
  simp only [habs]
  norm_num [defaultDetector, c9WitnessHistory]

/-- C10: any record list the detector returns lists at most one record
per rule, in the fixed order price movement, volume spike, SMA
divergence, and hence holds at most three records. -/
theorem C10_detect_order_and_multiplicity (d : AnomalyDetector)
    (data : List OhlcvItem) (l : List Anomaly)
    (h : d.detect_anomalies data = .ok l) :
    (l.map (·.type)).Sublist
      [AnomalyType.price_movement, AnomalyType.volume_spike, AnomalyType.sma_divergence]
    ∧ l.length ≤ 3 := by
  have main : (l.map (·.type)).Sublist
      [AnomalyType.price_movement, AnomalyType.volume_spike,
        AnomalyType.sma_divergence] := by
    unfold AnomalyDetector.detect_anomalies at h
    by_cases he : data.isEmpty
    · rw [if_pos he] at h
      simp only [Except.ok.injEq] at h
      subst h
      simp
    · rw [if_neg he] at h
      cases hp : d.detect_price_anomaly data with
      | error e => rw [hp] at h; exact absurd h (by simp)
      | ok p =>
        rw [hp] at h
        cases hv : d.detect_volume_anomaly data with
        | error e => rw [hv] at h; exact absurd h (by simp)
        | ok v =>
          rw [hv] at h
          cases hs : d.detect_sma_divergence data with
          | error e => rw [hs] at h; exact absurd h (by simp)
          | ok s =>
            rw [hs] at h
            simp only [Except.ok.injEq] at h
            subst h
            have l1 : (p.toList.map (·.type)).Sublist [AnomalyType.price_movement] := by
              cases p with
              | none => simp
              | some a =>
                simp [detect_price_anomaly_type d data a hp]
            have l2 : (v.toList.map (·.type)).Sublist [AnomalyType.volume_spike] := by
              cases v with
              | none => simp
              | some a =>
                simp [detect_volume_anomaly_type d data a hv]
            have l3 : (s.toList.map (·.type)).Sublist [AnomalyType.sma_divergence] := by
              cases s with
              | none => simp
              | some a =>
                simp [detect_sma_divergence_type d data a hs]
            simp only [List.map_append]
            exact (l1.append l2).append l3
  refine ⟨main, ?_⟩
  have hlen := main.length_le
  simpa using hlen

/-- C10 witness: on a two-candle history only the price rule fires, and
the returned singleton list satisfies the order and multiplicity bound. -/
theorem C10_detect_witness :
    (([⟨.price_movement, "BTCUSDT", .medium, -100/11, 5, 9⟩] : List Anomaly).map
        (·.type)).Sublist
      [AnomalyType.price_movement, AnomalyType.volume_spike, AnomalyType.sma_divergence]
    ∧ ([⟨.price_movement, "BTCUSDT", .medium, -100/11, 5, 9⟩] : List Anomaly).length ≤ 3 := by
  have e1 : defaultDetector.detect_price_anomaly
      [⟨"BTCUSDT", 9, 100, 1⟩, ⟨"BTCUSDT", 8, 110, 1⟩]
      = .ok (some ⟨.price_movement, "BTCUSDT", .medium, -100/11, 5, 9⟩) := by
    simp only [AnomalyDetector.detect_price_anomaly, pydiv]
    rw [if_neg (by norm_num : ¬ (110:ℚ) = 0)]
    have habs : |((100:ℚ) - 110) / 110 * 100| = 100/11 := by
      rw [abs_of_nonpos (by norm_num)]; norm_num
    simp only [habs]
    norm_num [defaultDetector]
  have e2 : defaultDetector.detect_volume_anomaly
      [⟨"BTCUSDT", 9, 100, 1⟩, ⟨"BTCUSDT", 8, 110, 1⟩] = .ok none := by
    norm_num [AnomalyDetector.detect_volume_anomaly]
  have e3 : defaultDetector.detect_sma_divergence
      [⟨"BTCUSDT", 9, 100, 1⟩, ⟨"BTCUSDT", 8, 110, 1⟩] = .ok none := by
    norm_num [AnomalyDetector.detect_sma_divergence]
  exact C10_detect_order_and_multiplicity defaultDetector
    [⟨"BTCUSDT", 9, 100, 1⟩, ⟨"BTCUSDT", 8, 110, 1⟩]
    [⟨.price_movement, "BTCUSDT", .medium, -100/11, 5, 9⟩]
    (by simp [AnomalyDetector.detect_anomalies, e1, e2, e3])
